import Mathlib

/-!
# Verification of the cumulative-snowfall core

Shallow embedding of the data-transformation and view-logic core of the
snowfall-visualization repository.  JS numbers are modelled as exact
rationals (`ℚ`), JS arrays as `List`, JS strings as `List Char`, and the
`null`/`undefined`/`NaN`/`Infinity` values relevant to input validation as
explicit constructors of a small value type.  `src/unnamed/part_005` is
embedded in namespace `CoreCalc` and `src/unnamed/part_007` in namespace
`DataProc` (the two files define functions of the same names);
`src/js/chart-manager.js` is embedded in namespace `ChartManager`.
-/

namespace Snowfall

/-- The loop body shared by both `calculateDailySnowfall` implementations
(`src/unnamed/part_005` lines 18-22 and `src/unnamed/part_007` lines 21-26):
for `i = 1 .. depths.length-1` push `max(0, depths[i] - depths[i-1])`.
`part_007` reads each element through an `|| 0` fallback, which is the
identity on numeric values in this model. -/
def clampedDeltas : List ℚ → List ℚ
  | [] => []
  | [_] => []
  | a :: b :: rest => max 0 (b - a) :: clampedDeltas (b :: rest)

namespace CoreCalc

/-- `calculateDailySnowfall` from `src/unnamed/part_005`: an empty or
non-array input yields `[]`; otherwise the output starts with `0`
("first day has no previous day to compare") followed by the clamped
day-over-day depth deltas. -/
def calculateDailySnowfall (depths : List ℚ) : List ℚ :=
  match depths with
  | [] => []
  | _ :: _ => 0 :: clampedDeltas depths

end CoreCalc

namespace DataProc

/-- `calculateDailySnowfall` from `src/unnamed/part_007`: an empty or
non-array input yields `[]`; otherwise the output starts with
`max(0, depths[0])` ("first day ... snowfall equals depth (if positive)")
followed by the clamped day-over-day depth deltas. -/
def calculateDailySnowfall (depths : List ℚ) : List ℚ :=
  match depths with
  | d :: _ => max 0 d :: clampedDeltas depths
  | [] => []

end DataProc

/-- The running-sum loop of `calculateCumulative` (identical in
`src/unnamed/part_005` lines 39-43 and `src/unnamed/part_007` lines
44-47, the latter through an `|| 0` fallback that is the identity on
numeric values): starting from accumulator `sum`, push `sum + d` and
continue with the new accumulator. -/
def cumFrom (sum : ℚ) : List ℚ → List ℚ
  | [] => []
  | d :: rest => (sum + d) :: cumFrom (sum + d) rest

/-- `calculateCumulative` from `src/unnamed/part_005` / `src/unnamed/part_007`:
empty or non-array input yields `[]`; otherwise the running totals of the
daily values starting from `0` (on `[]` the loop also yields `[]`, so the
early return is absorbed). -/
def calculateCumulative (dailyValues : List ℚ) : List ℚ :=
  cumFrom 0 dailyValues

/-- One day's record as consumed by `getAxisBounds` and the chart builders:
`dayOfSeason` (integer day offset), `dailySnowfall` and
`cumulativeSnowfall` (measurements, modelled as exact rationals). -/
structure DailyRecord where
  dayOfSeason : Int
  dailySnowfall : ℚ
  cumulativeSnowfall : ℚ
deriving DecidableEq

/-- A season object as consumed by `filterSeasonsByRange`, `getAxisBounds`
and the chart builders: its `startYear` and its list of daily records. -/
structure Season where
  startYear : Int
  dailyData : List DailyRecord
deriving DecidableEq

/-- The result record of `getAxisBounds` (`src/unnamed/part_007`). -/
structure AxisBounds where
  minDayOfSeason : Int
  maxDayOfSeason : Int
  maxCumulative : ℚ
deriving DecidableEq

namespace DataProc

/-- `filterSeasonsByRange` from `src/unnamed/part_007` lines 60-69:
keep exactly the seasons whose `startYear` lies in `[startYear, endYear]`
(`year >= startYear && year <= endYear`). -/
def filterSeasonsByRange (seasons : List Season) (startYear endYear : Int) :
    List Season :=
  seasons.filter (fun season =>
    decide (startYear ≤ season.startYear) && decide (season.startYear ≤ endYear))

/-- The `minDayOfSeason` update of `getAxisBounds`'s loop body
(`src/unnamed/part_007` lines 96-99): `minDay` starts at `Infinity`
(modelled `none`) and is lowered to `record.dayOfSeason` whenever
`record.dailySnowfall > 0 && record.dayOfSeason < minDay` (the comparison
with `Infinity` is always true). -/
def updateMinDay (minDay : Option Int) (record : DailyRecord) : Option Int :=
  match minDay with
  | none => if 0 < record.dailySnowfall then some record.dayOfSeason else none
  | some m =>
      if 0 < record.dailySnowfall ∧ record.dayOfSeason < m then
        some record.dayOfSeason
      else some m

/-- The `maxDayOfSeason` update of `getAxisBounds`'s loop body
(`src/unnamed/part_007` lines 101-104): `maxDay` starts at `-Infinity`
(modelled `none`) and is raised whenever
`record.dailySnowfall > 0 && record.dayOfSeason > maxDay`. -/
def updateMaxDay (maxDay : Option Int) (record : DailyRecord) : Option Int :=
  match maxDay with
  | none => if 0 < record.dailySnowfall then some record.dayOfSeason else none
  | some m =>
      if 0 < record.dailySnowfall ∧ m < record.dayOfSeason then
        some record.dayOfSeason
      else some m

/-- The `maxCumulative` update of `getAxisBounds`'s loop body
(`src/unnamed/part_007` lines 106-109): raise `maxCumulative` (initially
`0`) whenever `record.cumulativeSnowfall > maxCumulative`. -/
def updateMaxCumulative (maxCum : ℚ) (record : DailyRecord) : ℚ :=
  if maxCum < record.cumulativeSnowfall then record.cumulativeSnowfall
  else maxCum

/-- The full loop body of `getAxisBounds` over one record: the three
accumulators `(minDay, maxDay, maxCumulative)` are updated independently. -/
def boundsStep (st : Option Int × Option Int × ℚ) (record : DailyRecord) :
    Option Int × Option Int × ℚ :=
  (updateMinDay st.1 record, updateMaxDay st.2.1 record,
   updateMaxCumulative st.2.2 record)

/-- The sequence of records visited by `getAxisBounds`'s nested
`seasons.forEach(season => season.dailyData.forEach(...))`, in visit
order.  (The `!Array.isArray(season.dailyData)` guard never fires in the
typed model.) -/
def allRecords : List Season → List DailyRecord
  | [] => []
  | s :: rest => s.dailyData ++ allRecords rest

/-- `getAxisBounds` from `src/unnamed/part_007` lines 76-125: default
`{0, 365, 0}` for an empty (or non-array) season list; otherwise fold the
loop body over all records and replace a never-updated `minDay`
(`Infinity`, modelled `none`) by `0` and a never-updated `maxDay`
(`-Infinity`) by `365`. -/
def getAxisBounds (seasons : List Season) : AxisBounds :=
  match seasons with
  | [] => { minDayOfSeason := 0, maxDayOfSeason := 365, maxCumulative := 0 }
  | _ :: _ =>
      let st := (allRecords seasons).foldl boundsStep (none, none, 0)
      { minDayOfSeason := st.1.getD 0
        maxDayOfSeason := st.2.1.getD 365
        maxCumulative := st.2.2 }

end DataProc

namespace ChartManager

/-- The module-level `highlightState` object of `src/js/chart-manager.js`
lines 254-257: `highlightedDatasetIndex` (`null` modelled `none`) and the
mobile tap-toggle flag `isToggled`. -/
structure HighlightState where
  highlightedDatasetIndex : Option Nat
  isToggled : Bool
deriving DecidableEq

/-- The initial value of `highlightState`:
`{highlightedDatasetIndex: null, isToggled: false}`. -/
def initialHighlightState : HighlightState :=
  { highlightedDatasetIndex := none, isToggled := false }

/-- `highlightSeries` (`src/js/chart-manager.js` lines 264-292) only
rewrites the datasets' visual properties (border widths and colors); it
never touches `highlightState`, so its action on the state is the
identity. -/
def highlightSeriesState (st : HighlightState) (_datasetIndex : Nat) :
    HighlightState :=
  st

/-- `clearHighlight` (`src/js/chart-manager.js` lines 298-309) resets
`highlightState` to `{null, false}` (and restores the datasets'
default visuals, not modelled). -/
def clearHighlight (_st : HighlightState) : HighlightState :=
  { highlightedDatasetIndex := none, isToggled := false }

/-- `toggleHighlight` (`src/js/chart-manager.js` lines 316-326): tapping
the currently toggled series clears the highlight; any other tap stores
the tapped index with `isToggled = true` (and highlights the series). -/
def toggleHighlight (st : HighlightState) (datasetIndex : Nat) :
    HighlightState :=
  if st.highlightedDatasetIndex = some datasetIndex ∧ st.isToggled then
    clearHighlight st
  else
    { highlightedDatasetIndex := some datasetIndex, isToggled := true }

/-- The `onHover` handler of the chart config (`src/js/chart-manager.js`
lines 137-145), as a state transition: with active elements under the
pointer it calls `highlightSeries` on the first one's dataset index
(state unchanged), otherwise it calls `clearHighlight`.
`activeElements` is modelled as the list of dataset indices. -/
def onHover (st : HighlightState) (activeElements : List Nat) :
    HighlightState :=
  match activeElements with
  | datasetIndex :: _ => highlightSeriesState st datasetIndex
  | [] => clearHighlight st

/-- A CSS color string as produced by `getSeasonColor`: either a hex
literal or an `hsl(h, s%, l%)` value, carried structurally. -/
inductive CSSColor where
  | hex (s : String)
  | hsl (hue sat lightness : ℚ)
deriving DecidableEq

/-- `getSeasonColor` from `src/js/chart-manager.js` lines 222-235:
`'#1a365d'` for `totalSeasons <= 1`, otherwise
`hsl(210, 70%, 25 + (seasonIndex / (totalSeasons - 1)) * 40 %)`. -/
def getSeasonColor (seasonIndex totalSeasons : Nat) : CSSColor :=
  if totalSeasons ≤ 1 then
    CSSColor.hex "#1a365d"
  else
    let minLightness : ℚ := 25
    let maxLightness : ℚ := 65
    let lightness := minLightness +
      ((seasonIndex : ℚ) / ((totalSeasons : ℚ) - 1)) *
        (maxLightness - minLightness)
    CSSColor.hsl 210 70 lightness

/-- The lightness component of a `CSSColor` (`none` for hex literals). -/
def lightnessOf : CSSColor → Option ℚ
  | CSSColor.hex _ => none
  | CSSColor.hsl _ _ l => some l

/-- A JS value as passed to `formatSeasonLabel`: a (finite) number, `NaN`,
`±Infinity`, a string, `null` or `undefined`. -/
inductive JSValue where
  | num (q : ℚ)
  | nan
  | posInf
  | negInf
  | str (s : String)
  | nullv
  | undef
deriving DecidableEq

/-- Decimal digits of a positive natural number, most significant first
(`String(n)` for integers).  Structural recursion on a fuel argument so
that the kernel can evaluate it; `natDigits` always supplies enough fuel. -/
def natDigitsGo : Nat → Nat → List Char
  | 0, _ => []
  | fuel + 1, n =>
      if n = 0 then []
      else natDigitsGo fuel (n / 10) ++ [Nat.digitChar (n % 10)]

/-- Decimal digits of a natural number, most significant first. -/
def natDigits (n : Nat) : List Char :=
  if n = 0 then ['0'] else natDigitsGo (n + 1) n

/-- JS `String()` of an integer-valued number. -/
def intDigits (i : Int) : List Char :=
  if i < 0 then '-' :: natDigits i.natAbs else natDigits i.toNat

/-- Decimal digits printed by JS for the fractional part `n / d` of a
number (`0 ≤ n < d`), by base-10 long division; exact for terminating
decimal fractions (all values reachable in this development), truncated
at 20 digits otherwise. -/
def fracDigits : Nat → Nat → Nat → List Char
  | 0, _, _ => []
  | fuel + 1, n, d =>
      if n = 0 then []
      else Nat.digitChar (n * 10 / d) :: fracDigits fuel (n * 10 % d) d

/-- JS number-to-string conversion (`String(n)` / template interpolation):
for integers the decimal digits with optional sign; otherwise sign,
integer part `|q.num| / q.den`, a decimal point, and the fractional
digits of `(|q.num| % q.den) / q.den` by long division. -/
def jsNumToString (q : ℚ) : List Char :=
  if q.den = 1 then intDigits q.num
  else
    (if q < 0 then ['-'] else []) ++
      natDigits (q.num.natAbs / q.den) ++ ['.'] ++
      fracDigits 20 (q.num.natAbs % q.den) q.den

/-- JS `s.slice(-2)`: the last two characters (the whole string when it is
shorter than two characters). -/
def sliceLast2 (s : List Char) : List Char :=
  s.drop (s.length - 2)

/-- The `'Invalid'` sentinel returned by `formatSeasonLabel`. -/
def invalidLabel : List Char :=
  ['I', 'n', 'v', 'a', 'l', 'i', 'd']

/-- `formatSeasonLabel` from `src/js/chart-manager.js` lines 242-251:
non-numbers (strings, `null`, `undefined`), `NaN`, `±Infinity` and numbers
outside `[1000, 9999]` yield `'Invalid'`; otherwise the label is
`` `${startYear}-${String(startYear + 1).slice(-2)}` ``. -/
def formatSeasonLabel (startYear : JSValue) : List Char :=
  match startYear with
  | JSValue.num q =>
      if q < 1000 ∨ 9999 < q then invalidLabel
      else jsNumToString q ++ ['-'] ++ sliceLast2 (jsNumToString (q + 1))
  | _ => invalidLabel

/-- The two-digit zero-padded decimal rendering of `m < 100`, used to
state the spec's "`(Y+1) mod 100`, zero-padded to 2 digits". -/
def pad2 (m : Nat) : List Char :=
  [Nat.digitChar (m / 10), Nat.digitChar (m % 10)]

/-- A chart point `{x: record.dayOfSeason, y: record.cumulativeSnowfall}`. -/
structure ChartPoint where
  x : Int
  y : ℚ
deriving DecidableEq

/-- The per-season dataset points built by `initChart`
(`src/js/chart-manager.js` lines 27-38): map records to
`(dayOfSeason, cumulativeSnowfall)` points, but replace the list by the
synthetic `[(0,0), (365,0)]` when it is empty or every `y` is `0`. -/
def initChartData (season : Season) : List ChartPoint :=
  let data := season.dailyData.map (fun record =>
    ChartPoint.mk record.dayOfSeason record.cumulativeSnowfall)
  if data.isEmpty || data.all (fun point => point.y == 0) then
    [ChartPoint.mk 0 0, ChartPoint.mk 365 0]
  else data

/-- The point lists of the datasets built by `initChart` for a season
list (one entry per season, in order). -/
def initChartDatasets (seasons : List Season) : List (List ChartPoint) :=
  seasons.map initChartData

/-- The per-season dataset points rebuilt by `updateChart`
(`src/js/chart-manager.js` lines 179-190); the code is identical to the
corresponding block of `initChart`. -/
def updateChartData (season : Season) : List ChartPoint :=
  let data := season.dailyData.map (fun record =>
    ChartPoint.mk record.dayOfSeason record.cumulativeSnowfall)
  if data.isEmpty || data.all (fun point => point.y == 0) then
    [ChartPoint.mk 0 0, ChartPoint.mk 365 0]
  else data

/-- The point lists of the datasets rebuilt by `updateChart` for a season
list (one entry per season, in order). -/
def updateChartDatasets (seasons : List Season) : List (List ChartPoint) :=
  seasons.map updateChartData

end ChartManager

/-! ## C1: depth-delta non-negativity -/

lemma clampedDeltas_length : ∀ l : List ℚ, (clampedDeltas l).length = l.length - 1
  | [] => rfl
  | [_] => rfl
  | a :: b :: rest => by
      simp [clampedDeltas, clampedDeltas_length (b :: rest)]

lemma clampedDeltas_getElem? : ∀ (l : List ℚ) (i : Nat) (h : i + 1 < l.length),
    (clampedDeltas l)[i]? =
      some (max 0 (l.get ⟨i + 1, h⟩ - l.get ⟨i, by omega⟩))
  | [], i, h => by simp at h
  | [_], i, h => by simp at h
  | a :: b :: rest, 0, h => by simp [clampedDeltas]
  | a :: b :: rest, i + 1, h => by
      have hrec := clampedDeltas_getElem? (b :: rest) i
        (by simp only [List.length_cons] at h ⊢; omega)
      simpa [clampedDeltas] using hrec

lemma clampedDeltas_nonneg : ∀ (l : List ℚ), ∀ x ∈ clampedDeltas l, 0 ≤ x
  | [] => by simp [clampedDeltas]
  | [_] => by simp [clampedDeltas]
  | a :: b :: rest => by
      intro x hx
      rcases List.mem_cons.mp hx with h | h
      · simp [h]
      · exact clampedDeltas_nonneg (b :: rest) x h

/-- C1: for every depth sequence `D` and every index `i > 0`,
`calculateDailySnowfall(D)[i] = max(0, D[i] - D[i-1])`, and every element
of the output is nonnegative — for both implementations
(`src/unnamed/part_005` and `src/unnamed/part_007`). -/
theorem calculateDailySnowfall_delta_nonneg (D : List ℚ) (i : Nat)
    (h0 : 0 < i) (hi : i < D.length) :
    (CoreCalc.calculateDailySnowfall D)[i]? =
        some (max 0 (D.get ⟨i, hi⟩ - D.get ⟨i - 1, by omega⟩)) ∧
    (DataProc.calculateDailySnowfall D)[i]? =
        some (max 0 (D.get ⟨i, hi⟩ - D.get ⟨i - 1, by omega⟩)) ∧
    (∀ x ∈ CoreCalc.calculateDailySnowfall D, 0 ≤ x) ∧
    (∀ x ∈ DataProc.calculateDailySnowfall D, 0 ≤ x) := by
  obtain ⟨d, l, rfl⟩ : ∃ d l, D = d :: l := by
    cases D with
    | nil => simp at hi
    | cons d l => exact ⟨d, l, rfl⟩
  obtain ⟨j, rfl⟩ : ∃ j, i = j + 1 := ⟨i - 1, by omega⟩
  have hj : j + 1 < (d :: l).length := hi
  have hdelta := clampedDeltas_getElem? (d :: l) j hj
  refine ⟨?_, ?_, ?_, ?_⟩
  · simpa [CoreCalc.calculateDailySnowfall] using hdelta
  · simpa [DataProc.calculateDailySnowfall] using hdelta
  · intro x hx
    rcases List.mem_cons.mp hx with h | h
    · simp [h]
    · exact clampedDeltas_nonneg _ x h
  · intro x hx
    rcases List.mem_cons.mp hx with h | h
    · simp [h]
    · exact clampedDeltas_nonneg _ x h

/-- Witness for C1 at `D = [0, 5, 3, 10]`, `i = 2` (the melt day:
`max 0 (3 - 5) = 0`). -/
theorem calculateDailySnowfall_delta_nonneg_witness :
    (CoreCalc.calculateDailySnowfall [0, 5, 3, 10])[2]? = some (0 : ℚ) ∧
    (DataProc.calculateDailySnowfall [0, 5, 3, 10])[2]? = some (0 : ℚ) ∧
    (∀ x ∈ CoreCalc.calculateDailySnowfall [0, 5, 3, 10], 0 ≤ x) ∧
    (∀ x ∈ DataProc.calculateDailySnowfall [0, 5, 3, 10], 0 ≤ x) := by
  obtain ⟨h1, h2, h3, h4⟩ := calculateDailySnowfall_delta_nonneg
    [0, 5, 3, 10] 2 (by decide) (by decide)
  refine ⟨?_, ?_, h3, h4⟩
  · rw [h1]; norm_num
  · rw [h2]; norm_num

/-! ## C2: cumulative consistency -/

lemma cumFrom_length : ∀ (s : ℚ) (l : List ℚ), (cumFrom s l).length = l.length
  | _, [] => rfl
  | s, d :: rest => by simp [cumFrom, cumFrom_length (s + d) rest]

lemma cumFrom_getElem? : ∀ (s : ℚ) (l : List ℚ) (i : Nat), i < l.length →
    (cumFrom s l)[i]? = some (s + (l.take (i + 1)).sum)
  | _, [], i, h => by simp at h
  | s, d :: rest, 0, _ => by simp [cumFrom]
  | s, d :: rest, i + 1, h => by
      have hrec := cumFrom_getElem? (s + d) rest i
        (by simp only [List.length_cons] at h; omega)
      simp [cumFrom, hrec, add_assoc]

lemma cumFrom_chain : ∀ (s : ℚ) (l : List ℚ), (∀ x ∈ l, 0 ≤ x) →
    List.Chain' (· ≤ ·) (s :: cumFrom s l)
  | s, [], _ => by simp [cumFrom]
  | s, d :: rest, h => by
      have hd : 0 ≤ d := h d (by simp)
      have hrec := cumFrom_chain (s + d) rest (fun x hx => h x (by simp [hx]))
      simp only [cumFrom]
      exact List.chain'_cons.mpr ⟨by linarith, hrec⟩

/-- C2: for every daily-snowfall sequence (elementwise nonnegative, as the
data model guarantees), `calculateCumulative` preserves the length, returns
the prefix sums `cumulative[i] = sum(daily[0..i])`, and the result is
non-decreasing (adjacent elements are ordered). -/
theorem calculateCumulative_spec (daily : List ℚ) (hpos : ∀ x ∈ daily, 0 ≤ x) :
    (calculateCumulative daily).length = daily.length ∧
    (∀ i : Nat, i < daily.length →
      (calculateCumulative daily)[i]? = some ((daily.take (i + 1)).sum)) ∧
    List.Chain' (· ≤ ·) (calculateCumulative daily) := by
  refine ⟨cumFrom_length 0 daily, ?_, ?_⟩
  · intro i h
    simpa using cumFrom_getElem? 0 daily i h
  · exact (cumFrom_chain 0 daily hpos).tail

/-- Witness for C2 at `daily = [0, 5, 0, 7]` (cumulative `[0, 5, 5, 12]`). -/
theorem calculateCumulative_spec_witness :
    (calculateCumulative [0, 5, 0, 7]).length = 4 ∧
    (calculateCumulative [0, 5, 0, 7])[3]? = some (12 : ℚ) ∧
    List.Chain' (· ≤ ·) (calculateCumulative [0, 5, 0, 7]) := by
  obtain ⟨h1, h2, h3⟩ := calculateCumulative_spec [0, 5, 0, 7] (by norm_num)
  refine ⟨by rw [h1]; rfl, ?_, h3⟩
  rw [h2 3 (by norm_num)]
  norm_num

/-! ## C3: the two depth-delta implementations -/

/-- C3: on every non-empty depth sequence `d :: l` the two
`calculateDailySnowfall` implementations agree at every index `i ≥ 1` and
have the same length; at index `0` the `part_005` version returns `0` while
the `part_007` version returns `max 0 d`; hence the two outputs are equal
exactly when the first depth value is `≤ 0`. -/
theorem depthDelta_implementations (d : ℚ) (l : List ℚ) :
    (∀ i : Nat, 1 ≤ i →
      (CoreCalc.calculateDailySnowfall (d :: l))[i]? =
        (DataProc.calculateDailySnowfall (d :: l))[i]?) ∧
    (CoreCalc.calculateDailySnowfall (d :: l)).length =
      (DataProc.calculateDailySnowfall (d :: l)).length ∧
    (CoreCalc.calculateDailySnowfall (d :: l))[0]? = some 0 ∧
    (DataProc.calculateDailySnowfall (d :: l))[0]? = some (max 0 d) ∧
    (CoreCalc.calculateDailySnowfall (d :: l) =
        DataProc.calculateDailySnowfall (d :: l) ↔ d ≤ 0) := by
  have e1 : (CoreCalc.calculateDailySnowfall (d :: l))[0]? = some (0 : ℚ) := by
    simp [CoreCalc.calculateDailySnowfall]
  have e2 : (DataProc.calculateDailySnowfall (d :: l))[0]? = some (max 0 d) := by
    simp [DataProc.calculateDailySnowfall]
  refine ⟨?_, by simp [CoreCalc.calculateDailySnowfall,
    DataProc.calculateDailySnowfall], e1, e2, ?_⟩
  · intro i hi
    obtain ⟨j, rfl⟩ : ∃ j, i = j + 1 := ⟨i - 1, by omega⟩
    simp [CoreCalc.calculateDailySnowfall, DataProc.calculateDailySnowfall]
  · constructor
    · intro he
      have h0 : some (0 : ℚ) = some (max 0 d) := by rw [← e1, he, e2]
      have hmax : max 0 d = 0 := (Option.some_injective ℚ h0).symm
      exact max_eq_left_iff.mp hmax
    · intro hd
      simp [CoreCalc.calculateDailySnowfall, DataProc.calculateDailySnowfall,
        max_eq_left hd]

/-- Witness for C3 at the depth sequence `[5, 3]`: the implementations agree
at index `1`, return `0` and `5` respectively at index `0`, and their
outputs differ (first depth `5 > 0`). -/
theorem depthDelta_implementations_witness :
    (CoreCalc.calculateDailySnowfall [5, 3])[1]? =
      (DataProc.calculateDailySnowfall [5, 3])[1]? ∧
    (CoreCalc.calculateDailySnowfall [5, 3])[0]? = some (0 : ℚ) ∧
    (DataProc.calculateDailySnowfall [5, 3])[0]? = some (5 : ℚ) ∧
    CoreCalc.calculateDailySnowfall [5, 3] ≠
      DataProc.calculateDailySnowfall [5, 3] := by
  obtain ⟨h1, _, h2, h3, h4⟩ := depthDelta_implementations 5 [3]
  refine ⟨h1 1 le_rfl, h2, ?_, ?_⟩
  · rw [h3]; norm_num
  · intro he
    have h5 := h4.mp he
    norm_num at h5

/-! ## C5: range filter correctness -/

/-- C5: `filterSeasonsByRange` keeps exactly the seasons with
`a ≤ startYear ≤ b` (inclusive both ends); the result is a sublist of the
input (same elements, original order — the input itself is never
modified in this purely functional model); an empty input, and an empty
range `a > b`, give an empty result. -/
theorem filterSeasonsByRange_spec (seasons : List Season) (a b : Int) :
    (∀ s : Season, s ∈ DataProc.filterSeasonsByRange seasons a b ↔
      s ∈ seasons ∧ a ≤ s.startYear ∧ s.startYear ≤ b) ∧
    (DataProc.filterSeasonsByRange seasons a b).Sublist seasons ∧
    (seasons = [] → DataProc.filterSeasonsByRange seasons a b = []) ∧
    (b < a → DataProc.filterSeasonsByRange seasons a b = []) := by
  refine ⟨?_, List.filter_sublist seasons, ?_, ?_⟩
  · intro s
    simp [DataProc.filterSeasonsByRange, List.mem_filter]
  · rintro rfl
    rfl
  · intro hba
    apply List.eq_nil_iff_forall_not_mem.mpr
    intro s hs
    have hmem := List.mem_filter.mp hs
    simp only [Bool.and_eq_true, decide_eq_true_eq] at hmem
    omega

/-- Witness for C5: with seasons starting `2020` and `2023`, the range
`[2021, 2024]` keeps the `2023` season, and the inverted range `[5, 3]`
gives the empty result. -/
theorem filterSeasonsByRange_spec_witness :
    (Season.mk 2023 [] ∈
      DataProc.filterSeasonsByRange [Season.mk 2020 [], Season.mk 2023 []]
        2021 2024) ∧
    DataProc.filterSeasonsByRange [Season.mk 2020 [], Season.mk 2023 []]
        5 3 = [] := by
  obtain ⟨hmem, _, _, _⟩ :=
    filterSeasonsByRange_spec [Season.mk 2020 [], Season.mk 2023 []] 2021 2024
  obtain ⟨_, _, _, hord⟩ :=
    filterSeasonsByRange_spec [Season.mk 2020 [], Season.mk 2023 []] 5 3
  exact ⟨(hmem (Season.mk 2023 [])).mpr ⟨by simp, by norm_num, by norm_num⟩,
    hord (by norm_num)⟩

/-! ## C4: axis bounds -/

namespace DataProc

lemma foldl_boundsStep : ∀ (R : List DailyRecord) (st : Option Int × Option Int × ℚ),
    R.foldl boundsStep st =
      (R.foldl updateMinDay st.1, R.foldl updateMaxDay st.2.1,
       R.foldl updateMaxCumulative st.2.2)
  | [], _ => rfl
  | r :: R, st => by
      simp [List.foldl_cons, boundsStep, foldl_boundsStep R]

lemma foldl_updateMinDay_some : ∀ (R : List DailyRecord) (m : Int),
    ∃ m', R.foldl updateMinDay (some m) = some m' ∧ m' ≤ m
  | [], m => ⟨m, rfl, le_rfl⟩
  | r :: R, m => by
      by_cases h : 0 < r.dailySnowfall ∧ r.dayOfSeason < m
      · obtain ⟨m', hm', hle⟩ := foldl_updateMinDay_some R r.dayOfSeason
        refine ⟨m', ?_, by omega⟩
        simpa [List.foldl_cons, updateMinDay, h] using hm'
      · obtain ⟨m', hm', hle⟩ := foldl_updateMinDay_some R m
        refine ⟨m', ?_, hle⟩
        simpa [List.foldl_cons, updateMinDay, h] using hm'

lemma foldl_updateMaxDay_some : ∀ (R : List DailyRecord) (m : Int),
    ∃ m', R.foldl updateMaxDay (some m) = some m' ∧ m ≤ m'
  | [], m => ⟨m, rfl, le_rfl⟩
  | r :: R, m => by
      by_cases h : 0 < r.dailySnowfall ∧ m < r.dayOfSeason
      · obtain ⟨m', hm', hle⟩ := foldl_updateMaxDay_some R r.dayOfSeason
        refine ⟨m', ?_, by omega⟩
        simpa [List.foldl_cons, updateMaxDay, h] using hm'
      · obtain ⟨m', hm', hle⟩ := foldl_updateMaxDay_some R m
        refine ⟨m', ?_, hle⟩
        simpa [List.foldl_cons, updateMaxDay, h] using hm'

lemma foldl_updateMinDay_le : ∀ (R : List DailyRecord) (acc : Option Int)
    (m' : Int), R.foldl updateMinDay acc = some m' →
    ∀ r ∈ R, 0 < r.dailySnowfall → m' ≤ r.dayOfSeason
  | [], _, _, _ => by simp
  | r :: R, acc, m', h => by
      intro x hx hpos
      rcases List.mem_cons.mp hx with rfl | hxR
      · have hk : ∃ k, updateMinDay acc x = some k ∧ k ≤ x.dayOfSeason := by
          cases acc with
          | none => exact ⟨x.dayOfSeason, by simp [updateMinDay, hpos], le_rfl⟩
          | some m =>
              by_cases hc : x.dayOfSeason < m
              · exact ⟨x.dayOfSeason, by simp [updateMinDay, hpos, hc], le_rfl⟩
              · exact ⟨m, by simp [updateMinDay, hc], by omega⟩
        obtain ⟨k, hk1, hk2⟩ := hk
        have hfold : R.foldl updateMinDay (some k) = some m' := by
          simpa [List.foldl_cons, hk1] using h
        obtain ⟨m'', hm'', hle⟩ := foldl_updateMinDay_some R k
        have hmm : m' = m'' := Option.some_inj.mp (hfold.symm.trans hm'')
        omega
      · exact foldl_updateMinDay_le R (updateMinDay acc r) m'
          (by simpa [List.foldl_cons] using h) x hxR hpos

lemma foldl_updateMaxDay_ge : ∀ (R : List DailyRecord) (acc : Option Int)
    (m' : Int), R.foldl updateMaxDay acc = some m' →
    ∀ r ∈ R, 0 < r.dailySnowfall → r.dayOfSeason ≤ m'
  | [], _, _, _ => by simp
  | r :: R, acc, m', h => by
      intro x hx hpos
      rcases List.mem_cons.mp hx with rfl | hxR
      · have hk : ∃ k, updateMaxDay acc x = some k ∧ x.dayOfSeason ≤ k := by
          cases acc with
          | none => exact ⟨x.dayOfSeason, by simp [updateMaxDay, hpos], le_rfl⟩
          | some m =>
              by_cases hc : m < x.dayOfSeason
              · exact ⟨x.dayOfSeason, by simp [updateMaxDay, hpos, hc], le_rfl⟩
              · exact ⟨m, by simp [updateMaxDay, hc], by omega⟩
        obtain ⟨k, hk1, hk2⟩ := hk
        have hfold : R.foldl updateMaxDay (some k) = some m' := by
          simpa [List.foldl_cons, hk1] using h
        obtain ⟨m'', hm'', hle⟩ := foldl_updateMaxDay_some R k
        have hmm : m' = m'' := Option.some_inj.mp (hfold.symm.trans hm'')
        omega
      · exact foldl_updateMaxDay_ge R (updateMaxDay acc r) m'
          (by simpa [List.foldl_cons] using h) x hxR hpos

lemma foldl_updateMinDay_none_iff : ∀ (R : List DailyRecord),
    R.foldl updateMinDay none = none ↔ ∀ r ∈ R, ¬ 0 < r.dailySnowfall
  | [] => by simp
  | r :: R => by
      by_cases hpos : 0 < r.dailySnowfall
      · have h0 : updateMinDay none r = some r.dayOfSeason := by
          simp [updateMinDay, hpos]
        obtain ⟨m', hm', _⟩ := foldl_updateMinDay_some R r.dayOfSeason
        simp [List.foldl_cons, h0, hm', hpos]
      · have h0 : updateMinDay none r = none := by simp [updateMinDay, hpos]
        simp [List.foldl_cons, h0, foldl_updateMinDay_none_iff R, hpos]
        exact fun _ => not_lt.mp hpos

lemma foldl_updateMaxDay_none_iff : ∀ (R : List DailyRecord),
    R.foldl updateMaxDay none = none ↔ ∀ r ∈ R, ¬ 0 < r.dailySnowfall
  | [] => by simp
  | r :: R => by
      by_cases hpos : 0 < r.dailySnowfall
      · have h0 : updateMaxDay none r = some r.dayOfSeason := by
          simp [updateMaxDay, hpos]
        obtain ⟨m', hm', _⟩ := foldl_updateMaxDay_some R r.dayOfSeason
        simp [List.foldl_cons, h0, hm', hpos]
      · have h0 : updateMaxDay none r = none := by simp [updateMaxDay, hpos]
        simp [List.foldl_cons, h0, foldl_updateMaxDay_none_iff R, hpos]
        exact fun _ => not_lt.mp hpos

lemma foldl_updateMaxCumulative_le : ∀ (R : List DailyRecord) (c : ℚ),
    c ≤ R.foldl updateMaxCumulative c
  | [], _ => le_rfl
  | r :: R, c => by
      have hstep : c ≤ updateMaxCumulative c r := by
        by_cases h : c < r.cumulativeSnowfall
        · simpa [updateMaxCumulative, h] using le_of_lt h
        · simp [updateMaxCumulative, h]
      have hrec := foldl_updateMaxCumulative_le R (updateMaxCumulative c r)
      simpa [List.foldl_cons] using le_trans hstep hrec

lemma foldl_updateMaxCumulative_ge : ∀ (R : List DailyRecord) (c : ℚ),
    ∀ r ∈ R, r.cumulativeSnowfall ≤ R.foldl updateMaxCumulative c
  | [], _ => by simp
  | r :: R, c => by
      intro x hx
      rcases List.mem_cons.mp hx with rfl | hxR
      · have h1 : x.cumulativeSnowfall ≤ updateMaxCumulative c x := by
          by_cases h : c < x.cumulativeSnowfall
          · simp [updateMaxCumulative, h]
          · simpa [updateMaxCumulative, h] using not_lt.mp h
        have h2 := foldl_updateMaxCumulative_le R (updateMaxCumulative c x)
        simpa [List.foldl_cons] using le_trans h1 h2
      · have := foldl_updateMaxCumulative_ge R (updateMaxCumulative c r) x hxR
        simpa [List.foldl_cons] using this

lemma mem_allRecords : ∀ (seasons : List Season) (r : DailyRecord),
    r ∈ allRecords seasons ↔ ∃ s ∈ seasons, r ∈ s.dailyData
  | [], r => by simp [allRecords]
  | s :: rest, r => by
      simp [allRecords, mem_allRecords rest]

lemma allRecords_eq_nil : ∀ (seasons : List Season),
    (∀ s ∈ seasons, s.dailyData = []) → allRecords seasons = []
  | [], _ => rfl
  | s :: rest, h => by
      have h1 : s.dailyData = [] := h s (by simp)
      have h2 := allRecords_eq_nil rest (fun x hx => h x (by simp [hx]))
      simp [allRecords, h1, h2]

/-- C4: for every season list, `getAxisBounds` satisfies
`minDayOfSeason ≤ maxDayOfSeason`; every record with positive daily
snowfall has its `dayOfSeason` inside `[minDayOfSeason, maxDayOfSeason]`;
`maxCumulative` dominates every record's `cumulativeSnowfall`; when no
season has a positive-snowfall day the bounds default to `0` and `365`;
and `maxCumulative = 0` when there are no seasons or no records.  (The
embedding is a total function, so no input throws.) -/
theorem getAxisBounds_spec (seasons : List Season) :
    (getAxisBounds seasons).minDayOfSeason ≤
      (getAxisBounds seasons).maxDayOfSeason ∧
    (∀ s ∈ seasons, ∀ r ∈ s.dailyData, 0 < r.dailySnowfall →
      (getAxisBounds seasons).minDayOfSeason ≤ r.dayOfSeason ∧
      r.dayOfSeason ≤ (getAxisBounds seasons).maxDayOfSeason) ∧
    (∀ s ∈ seasons, ∀ r ∈ s.dailyData,
      r.cumulativeSnowfall ≤ (getAxisBounds seasons).maxCumulative) ∧
    ((∀ s ∈ seasons, ∀ r ∈ s.dailyData, ¬ 0 < r.dailySnowfall) →
      (getAxisBounds seasons).minDayOfSeason = 0 ∧
      (getAxisBounds seasons).maxDayOfSeason = 365) ∧
    ((∀ s ∈ seasons, s.dailyData = []) →
      (getAxisBounds seasons).maxCumulative = 0) := by
  cases seasons with
  | nil =>
      refine ⟨by norm_num [getAxisBounds], by simp, by simp, ?_, ?_⟩
      · exact fun _ => ⟨rfl, rfl⟩
      · exact fun _ => rfl
  | cons s0 rest =>
      have hb : getAxisBounds (s0 :: rest) =
          { minDayOfSeason :=
              ((allRecords (s0 :: rest)).foldl updateMinDay none).getD 0,
            maxDayOfSeason :=
              ((allRecords (s0 :: rest)).foldl updateMaxDay none).getD 365,
            maxCumulative :=
              (allRecords (s0 :: rest)).foldl updateMaxCumulative 0 } := by
        simp [getAxisBounds, foldl_boundsStep]
      rw [hb]
      set R : List DailyRecord := allRecords (s0 :: rest) with hRdef
      have hmemR : ∀ r : DailyRecord,
          r ∈ R ↔ ∃ s ∈ s0 :: rest, r ∈ s.dailyData := by
        intro r
        rw [hRdef]
        exact mem_allRecords (s0 :: rest) r
      have hcum : ∀ s ∈ s0 :: rest, ∀ r ∈ s.dailyData,
          r.cumulativeSnowfall ≤ R.foldl updateMaxCumulative 0 := by
        intro s hs r hr
        exact foldl_updateMaxCumulative_ge R 0 r ((hmemR r).mpr ⟨s, hs, hr⟩)
      have hempty : (∀ s ∈ s0 :: rest, s.dailyData = []) →
          R.foldl updateMaxCumulative 0 = 0 := by
        intro h
        rw [hRdef, allRecords_eq_nil (s0 :: rest) h]
        rfl
      rcases hmin : R.foldl updateMinDay none with _ | m
      · -- no record with positive snowfall
        have hnopos : ∀ r ∈ R, ¬ 0 < r.dailySnowfall :=
          (foldl_updateMinDay_none_iff R).mp hmin
        have hmaxn : R.foldl updateMaxDay none = none :=
          (foldl_updateMaxDay_none_iff R).mpr hnopos
        rw [hmaxn]
        refine ⟨by norm_num, ?_, hcum, fun _ => ⟨rfl, rfl⟩, hempty⟩
        intro s hs r hr hpos
        exact absurd hpos (hnopos r ((hmemR r).mpr ⟨s, hs, hr⟩))
      · -- some positive-snowfall record exists
        have hpos_ex : ∃ r ∈ R, 0 < r.dailySnowfall := by
          by_contra hno
          push_neg at hno
          have : R.foldl updateMinDay none = none :=
            (foldl_updateMinDay_none_iff R).mpr
              (fun r hr => not_lt.mpr (hno r hr))
          rw [this] at hmin
          exact Option.noConfusion hmin
        obtain ⟨r0, hr0R, hr0pos⟩ := hpos_ex
        obtain ⟨M, hM⟩ : ∃ M, R.foldl updateMaxDay none = some M := by
          rcases hMd : R.foldl updateMaxDay none with _ | M
          · exact absurd hr0pos
              (((foldl_updateMaxDay_none_iff R).mp hMd) r0 hr0R)
          · exact ⟨M, rfl⟩
        rw [hM]
        have hlow := foldl_updateMinDay_le R none m hmin
        have hhigh := foldl_updateMaxDay_ge R none M hM
        refine ⟨?_, ?_, hcum, ?_, hempty⟩
        · have h1 := hlow r0 hr0R hr0pos
          have h2 := hhigh r0 hr0R hr0pos
          simp only [Option.getD_some]
          omega
        · intro s hs r hr hpos
          have hrR := (hmemR r).mpr ⟨s, hs, hr⟩
          exact ⟨hlow r hrR hpos, hhigh r hrR hpos⟩
        · intro h
          exact absurd hr0pos
            (by
              obtain ⟨s, hs, hr0⟩ := (hmemR r0).mp hr0R
              exact h s hs r0 hr0)

/-- Witness for C4 at one season with a positive-snow record
`{day 100, snow 2, cum 2}` and a zero-snow record `{day 200, 0, 2}`, and
at the empty season list (default bounds `{0, 365, 0}`). -/
theorem getAxisBounds_spec_witness :
    (getAxisBounds [Season.mk 2023
        [DailyRecord.mk 100 2 2, DailyRecord.mk 200 0 2]]).minDayOfSeason ≤
      (getAxisBounds [Season.mk 2023
        [DailyRecord.mk 100 2 2, DailyRecord.mk 200 0 2]]).maxDayOfSeason ∧
    (getAxisBounds [Season.mk 2023
        [DailyRecord.mk 100 2 2, DailyRecord.mk 200 0 2]]).minDayOfSeason ≤
      100 ∧
    (100 : Int) ≤ (getAxisBounds [Season.mk 2023
        [DailyRecord.mk 100 2 2, DailyRecord.mk 200 0 2]]).maxDayOfSeason ∧
    (2 : ℚ) ≤ (getAxisBounds [Season.mk 2023
        [DailyRecord.mk 100 2 2, DailyRecord.mk 200 0 2]]).maxCumulative ∧
    (getAxisBounds ([] : List Season)).minDayOfSeason = 0 ∧
    (getAxisBounds ([] : List Season)).maxDayOfSeason = 365 ∧
    (getAxisBounds ([] : List Season)).maxCumulative = 0 := by
  obtain ⟨h1, h2, h3, _, _⟩ := getAxisBounds_spec
    [Season.mk 2023 [DailyRecord.mk 100 2 2, DailyRecord.mk 200 0 2]]
  obtain ⟨_, _, _, h4e, h5e⟩ := getAxisBounds_spec ([] : List Season)
  have hday := h2 (Season.mk 2023
      [DailyRecord.mk 100 2 2, DailyRecord.mk 200 0 2]) (by simp)
    (DailyRecord.mk 100 2 2) (by simp) (by norm_num)
  have hcum := h3 (Season.mk 2023
      [DailyRecord.mk 100 2 2, DailyRecord.mk 200 0 2]) (by simp)
    (DailyRecord.mk 100 2 2) (by simp)
  have hdef := h4e (by simp)
  exact ⟨h1, hday.1, hday.2, hcum, hdef.1, hdef.2, h5e (by simp)⟩

end DataProc

/-! ## C6 and C7: highlight state machine -/

namespace ChartManager

/-- C6 counterexample: with a tap-lock active on series `0`
(`highlightState = {highlightedDatasetIndex: 0, isToggled: true}`), a
hover event with the pointer over no series (`activeElements = []`) does
change the persistent locked state — `onHover` calls `clearHighlight`,
which resets it to `{null, false}`. -/
theorem onHover_breaks_tapLock :
    onHover (HighlightState.mk (some 0) true) [] ≠
      HighlightState.mk (some 0) true := by
  decide

/-- C6 (amended): while a tap-lock on series `i` is active, a hover event
with the pointer over some series leaves the state unchanged, but a hover
event with the pointer leaving all series resets the state to the initial
(unlocked) state, clearing the lock. -/
theorem onHover_tapLocked (i : Nat) (activeElements : List Nat) :
    onHover (HighlightState.mk (some i) true) activeElements =
      if activeElements.isEmpty then initialHighlightState
      else HighlightState.mk (some i) true := by
  cases activeElements with
  | nil => rfl
  | cons e es => rfl

/-- C7: from the initial (Normal) state, `toggleHighlight i` locks series
`i`; a second `toggleHighlight i` returns to Normal; and `toggleHighlight j`
with `j ≠ i` while locked on `i` locks `j` alone, replacing the lock. -/
theorem toggleHighlight_spec (i j : Nat) (hij : j ≠ i) :
    toggleHighlight initialHighlightState i =
      HighlightState.mk (some i) true ∧
    toggleHighlight (toggleHighlight initialHighlightState i) i =
      initialHighlightState ∧
    toggleHighlight (HighlightState.mk (some i) true) j =
      HighlightState.mk (some j) true := by
  refine ⟨by simp [toggleHighlight, initialHighlightState, clearHighlight], ?_, ?_⟩
  · simp [toggleHighlight, initialHighlightState, clearHighlight]
  · simp [toggleHighlight, clearHighlight, Ne.symm hij]

/-- Witness for C7 at `i = 0`, `j = 1`. -/
theorem toggleHighlight_spec_witness :
    toggleHighlight initialHighlightState 0 =
      HighlightState.mk (some 0) true ∧
    toggleHighlight (toggleHighlight initialHighlightState 0) 0 =
      initialHighlightState ∧
    toggleHighlight (HighlightState.mk (some 0) true) 1 =
      HighlightState.mk (some 1) true :=
  toggleHighlight_spec 0 1 (by decide)

/-! ## C8: color monotonicity -/

/-- C8: for `total ≥ 2` the lightness of `getSeasonColor` is strictly
increasing in the season index over `0 ≤ i < j < total` (older seasons are
strictly lighter, so each color is strictly darker than the next), hence
all `total` colors are pairwise distinct; for `total ≤ 1` the function
returns the single fixed darkest color `'#1a365d'`. -/
theorem getSeasonColor_spec (i j total : Nat)
    (h2 : 2 ≤ total) (hij : i < j) (_hjt : j < total) :
    (∃ li lj : ℚ,
      getSeasonColor i total = CSSColor.hsl 210 70 li ∧
      getSeasonColor j total = CSSColor.hsl 210 70 lj ∧ li < lj) ∧
    getSeasonColor i total ≠ getSeasonColor j total ∧
    (∀ k t : Nat, t ≤ 1 → getSeasonColor k t = CSSColor.hex "#1a365d") := by
  have ht : ¬ total ≤ 1 := by omega
  have hc : (0 : ℚ) < (total : ℚ) - 1 := by
    have h2q : (2 : ℚ) ≤ (total : ℚ) := by exact_mod_cast h2
    linarith
  have hdiv : ((i : ℚ) / ((total : ℚ) - 1)) < ((j : ℚ) / ((total : ℚ) - 1)) :=
    (div_lt_div_iff_of_pos_right hc).mpr (by exact_mod_cast hij)
  have hlt : 25 + ((i : ℚ) / ((total : ℚ) - 1)) * (65 - 25) <
      25 + ((j : ℚ) / ((total : ℚ) - 1)) * (65 - 25) := by
    have h40 : (0 : ℚ) < 65 - 25 := by norm_num
    nlinarith
  have hei : getSeasonColor i total =
      CSSColor.hsl 210 70 (25 + ((i : ℚ) / ((total : ℚ) - 1)) * (65 - 25)) := by
    simp [getSeasonColor, ht]
  have hej : getSeasonColor j total =
      CSSColor.hsl 210 70 (25 + ((j : ℚ) / ((total : ℚ) - 1)) * (65 - 25)) := by
    simp [getSeasonColor, ht]
  refine ⟨⟨_, _, hei, hej, hlt⟩, ?_, ?_⟩
  · intro he
    rw [hei, hej] at he
    have := (CSSColor.hsl.injEq _ _ _ _ _ _).mp he
    linarith [this.2.2]
  · intro k t htle
    simp [getSeasonColor, htle]

/-- Witness for C8 at `total = 3`, `i = 0`, `j = 1` (and the fixed color
at `total = 1`). -/
theorem getSeasonColor_spec_witness :
    (∃ li lj : ℚ,
      getSeasonColor 0 3 = CSSColor.hsl 210 70 li ∧
      getSeasonColor 1 3 = CSSColor.hsl 210 70 lj ∧ li < lj) ∧
    getSeasonColor 0 3 ≠ getSeasonColor 1 3 ∧
    getSeasonColor 5 1 = CSSColor.hex "#1a365d" := by
  obtain ⟨h1, h2, h3⟩ := getSeasonColor_spec 0 1 3
    (by decide) (by decide) (by decide)
  exact ⟨h1, h2, h3 5 1 (by decide)⟩

/-! ## C10: synthetic flat series for empty / all-zero seasons -/

lemma initChartData_degenerate (season : Season)
    (h : season.dailyData = [] ∨
      ∀ r ∈ season.dailyData, r.cumulativeSnowfall = 0) :
    initChartData season = [ChartPoint.mk 0 0, ChartPoint.mk 365 0] := by
  unfold initChartData
  rcases h with h | h
  · simp [h]
  · have hall : (season.dailyData.map fun record =>
        ChartPoint.mk record.dayOfSeason record.cumulativeSnowfall).all
          (fun point => point.y == 0) = true := by
      simp only [List.all_eq_true, List.mem_map]
      rintro p ⟨r, hr, rfl⟩
      simpa using h r hr
    simp [hall]

lemma initChartData_regular (season : Season)
    (h : ¬ (season.dailyData = [] ∨
      ∀ r ∈ season.dailyData, r.cumulativeSnowfall = 0)) :
    initChartData season = season.dailyData.map
      (fun record => ChartPoint.mk record.dayOfSeason record.cumulativeSnowfall) := by
  push_neg at h
  obtain ⟨r0, hr0, hr0ne⟩ := h.2
  unfold initChartData
  have h1 : (season.dailyData.map fun record =>
      ChartPoint.mk record.dayOfSeason record.cumulativeSnowfall).isEmpty =
        false := by
    simp [h.1]
  have h2 : (season.dailyData.map fun record =>
      ChartPoint.mk record.dayOfSeason record.cumulativeSnowfall).all
        (fun point => point.y == 0) = false := by
    simp only [List.all_eq_false, List.mem_map]
    exact ⟨ChartPoint.mk r0.dayOfSeason r0.cumulativeSnowfall,
      ⟨r0, hr0, rfl⟩, by simpa using hr0ne⟩
  simp [h1, h2]

lemma updateChartData_eq_init (season : Season) :
    updateChartData season = initChartData season := rfl

/-- C10: when building chart datasets, a season whose `dailyData` is empty
or whose records all have `cumulativeSnowfall = 0` gets the synthetic
two-point series `[(0,0), (365,0)]`, in both `initChart` and
`updateChart`; every other season's series is exactly its records'
`(dayOfSeason, cumulativeSnowfall)` points in order. -/
theorem chartDatasets_spec (seasons : List Season) (i : Nat)
    (hi : i < seasons.length) :
    ((seasons.get ⟨i, hi⟩).dailyData = [] ∨
        (∀ r ∈ (seasons.get ⟨i, hi⟩).dailyData, r.cumulativeSnowfall = 0) →
      (initChartDatasets seasons)[i]? =
          some [ChartPoint.mk 0 0, ChartPoint.mk 365 0] ∧
      (updateChartDatasets seasons)[i]? =
          some [ChartPoint.mk 0 0, ChartPoint.mk 365 0]) ∧
    (¬ ((seasons.get ⟨i, hi⟩).dailyData = [] ∨
        ∀ r ∈ (seasons.get ⟨i, hi⟩).dailyData, r.cumulativeSnowfall = 0) →
      (initChartDatasets seasons)[i]? =
          some ((seasons.get ⟨i, hi⟩).dailyData.map
            (fun record =>
              ChartPoint.mk record.dayOfSeason record.cumulativeSnowfall)) ∧
      (updateChartDatasets seasons)[i]? =
          some ((seasons.get ⟨i, hi⟩).dailyData.map
            (fun record =>
              ChartPoint.mk record.dayOfSeason record.cumulativeSnowfall))) := by
  have hgi : (initChartDatasets seasons)[i]? =
      some (initChartData (seasons.get ⟨i, hi⟩)) := by
    simp [initChartDatasets, List.getElem?_eq_getElem hi]
  have hgu : (updateChartDatasets seasons)[i]? =
      some (updateChartData (seasons.get ⟨i, hi⟩)) := by
    simp [updateChartDatasets, List.getElem?_eq_getElem hi]
  constructor
  · intro h
    rw [hgi, hgu, updateChartData_eq_init,
      initChartData_degenerate (seasons.get ⟨i, hi⟩) h]
    exact ⟨rfl, rfl⟩
  · intro h
    rw [hgi, hgu, updateChartData_eq_init,
      initChartData_regular (seasons.get ⟨i, hi⟩) h]
    exact ⟨rfl, rfl⟩

/-- Witness for C10: season `0` has no records (synthetic flat series),
season `1` has one record with positive cumulative snowfall (its own
point list). -/
theorem chartDatasets_spec_witness :
    (initChartDatasets
        [Season.mk 2023 [], Season.mk 2022 [DailyRecord.mk 10 1 1]])[0]? =
      some [ChartPoint.mk 0 0, ChartPoint.mk 365 0] ∧
    (updateChartDatasets
        [Season.mk 2023 [], Season.mk 2022 [DailyRecord.mk 10 1 1]])[0]? =
      some [ChartPoint.mk 0 0, ChartPoint.mk 365 0] ∧
    (initChartDatasets
        [Season.mk 2023 [], Season.mk 2022 [DailyRecord.mk 10 1 1]])[1]? =
      some [ChartPoint.mk 10 1] ∧
    (updateChartDatasets
        [Season.mk 2023 [], Season.mk 2022 [DailyRecord.mk 10 1 1]])[1]? =
      some [ChartPoint.mk 10 1] := by
  obtain ⟨hdeg, _⟩ := chartDatasets_spec
    [Season.mk 2023 [], Season.mk 2022 [DailyRecord.mk 10 1 1]] 0 (by decide)
  obtain ⟨_, hreg⟩ := chartDatasets_spec
    [Season.mk 2023 [], Season.mk 2022 [DailyRecord.mk 10 1 1]] 1 (by decide)
  obtain ⟨h1, h2⟩ := hdeg (Or.inl rfl)
  obtain ⟨h3, h4⟩ := hreg (by simp)
  exact ⟨h1, h2, by rw [h3]; rfl, by rw [h4]; rfl⟩

/-! ## C9: season label format -/

lemma natDigitsGo_succ2 (fuel n : Nat) (h : 100 ≤ n) :
    natDigitsGo (fuel + 2) n =
      natDigitsGo fuel (n / 100) ++
        [Nat.digitChar (n / 10 % 10), Nat.digitChar (n % 10)] := by
  have hn : ¬ n = 0 := by omega
  have hn10 : ¬ n / 10 = 0 := by omega
  simp [natDigitsGo, hn, hn10, Nat.div_div_eq_div_mul]

lemma sliceLast2_append2 (l : List Char) (a b : Char) :
    sliceLast2 (l ++ [a, b]) = [a, b] := by
  unfold sliceLast2
  rw [List.length_append]
  simp

lemma sliceLast2_intDigits (n : Int) (h1 : 1001 ≤ n) (h2 : n ≤ 10000) :
    sliceLast2 (intDigits n) = pad2 ((n % 100).toNat) := by
  have hneg : ¬ n < 0 := by omega
  have hm100 : 100 ≤ n.toNat := by omega
  have hmne : ¬ n.toNat = 0 := by omega
  obtain ⟨f, hf⟩ : ∃ f, n.toNat + 1 = f + 2 := ⟨n.toNat - 1, by omega⟩
  have hid : intDigits n = natDigitsGo (n.toNat + 1) n.toNat := by
    simp [intDigits, hneg, natDigits, hmne]
  rw [hid, hf, natDigitsGo_succ2 f n.toNat hm100, sliceLast2_append2]
  have e1 : (n % 100).toNat = n.toNat % 100 := by omega
  have e2 : n.toNat % 100 / 10 = n.toNat / 10 % 10 := by omega
  have e3 : n.toNat % 100 % 10 = n.toNat % 10 := by omega
  rw [pad2, e1, e2, e3]

/-- C9 counterexample: the non-integer number `4047/2 = 2023.5` lies in the
accepted range, so `formatSeasonLabel` does not map it to the `'Invalid'`
sentinel (the guard only rejects non-numbers, `NaN`, `±Infinity`, and
numbers outside `[1000, 9999]` — not non-integers). -/
theorem formatSeasonLabel_nonInteger_not_sentinel :
    (4047 / 2 : ℚ).den ≠ 1 ∧
    ¬ ((4047 / 2 : ℚ) < 1000 ∨ 9999 < (4047 / 2 : ℚ)) ∧
    formatSeasonLabel (JSValue.num (4047 / 2)) ≠ invalidLabel := by
  have hq : (4047 / 2 : ℚ) = mkRat 4047 2 := by
    rw [Rat.mkRat_eq_div]
    norm_num
  have hrange : ¬ ((4047 / 2 : ℚ) < 1000 ∨ 9999 < (4047 / 2 : ℚ)) := by
    push_neg
    norm_num
  refine ⟨by rw [hq]; decide, hrange, ?_⟩
  simp only [formatSeasonLabel]
  rw [if_neg hrange]
  intro he
  have hd : '-' ∈ invalidLabel := by
    rw [← he]
    simp
  simp [invalidLabel] at hd

/-- C9 (amended): for every integer start year `Y` with `1000 ≤ Y ≤ 9999`
the label is the decimal digits of `Y`, a dash, and `(Y+1) mod 100`
zero-padded to two digits; every non-number (string, `null`, `undefined`),
`NaN`, `±Infinity`, and every number outside `[1000, 9999]` maps to the
single `'Invalid'` sentinel without throwing.  (Non-integer numbers inside
the range are not rejected — see the counterexample.) -/
theorem formatSeasonLabel_spec (Y : Int) (h1 : 1000 ≤ Y) (h2 : Y ≤ 9999) :
    formatSeasonLabel (JSValue.num (Y : ℚ)) =
      intDigits Y ++ ['-'] ++ pad2 (((Y + 1) % 100).toNat) ∧
    formatSeasonLabel JSValue.nan = invalidLabel ∧
    formatSeasonLabel JSValue.posInf = invalidLabel ∧
    formatSeasonLabel JSValue.negInf = invalidLabel ∧
    (∀ s : String, formatSeasonLabel (JSValue.str s) = invalidLabel) ∧
    formatSeasonLabel JSValue.nullv = invalidLabel ∧
    formatSeasonLabel JSValue.undef = invalidLabel ∧
    (∀ q : ℚ, q < 1000 ∨ 9999 < q →
      formatSeasonLabel (JSValue.num q) = invalidLabel) := by
  have hg : ¬ ((Y : ℚ) < 1000 ∨ 9999 < (Y : ℚ)) := by
    push_neg
    constructor
    · exact_mod_cast h1
    · exact_mod_cast h2
  have hj1 : jsNumToString (Y : ℚ) = intDigits Y := by
    simp [jsNumToString, Rat.den_intCast, Rat.num_intCast]
  have hcast : (Y : ℚ) + 1 = ((Y + 1 : ℤ) : ℚ) := by push_cast; ring
  have hj2 : jsNumToString ((Y : ℚ) + 1) = intDigits (Y + 1) := by
    rw [hcast]
    simp only [jsNumToString, Rat.den_intCast, Rat.num_intCast, if_true]
  refine ⟨?_, rfl, rfl, rfl, fun _ => rfl, rfl, rfl, ?_⟩
  · simp only [formatSeasonLabel]
    rw [if_neg hg, hj1, hj2,
      sliceLast2_intDigits (Y + 1) (by omega) (by omega)]
  · intro q hq
    simp only [formatSeasonLabel]
    rw [if_pos hq]

/-- Witness for C9 at `Y = 2023` (label `"2023-24"`) and the invalid
inputs `NaN`, the string `"2023"`, `999` and `10000`. -/
theorem formatSeasonLabel_spec_witness :
    formatSeasonLabel (JSValue.num ((2023 : Int) : ℚ)) =
      ['2', '0', '2', '3', '-', '2', '4'] ∧
    formatSeasonLabel JSValue.nan = invalidLabel ∧
    formatSeasonLabel (JSValue.str "2023") = invalidLabel ∧
    formatSeasonLabel (JSValue.num 999) = invalidLabel ∧
    formatSeasonLabel (JSValue.num 10000) = invalidLabel := by
  obtain ⟨hfmt, hnan, _, _, hstr, _, _, hout⟩ :=
    formatSeasonLabel_spec 2023 (by norm_num) (by norm_num)
  refine ⟨?_, hnan, hstr "2023", hout 999 (by norm_num),
    hout 10000 (by norm_num)⟩
  rw [hfmt]
  decide

end ChartManager

end Snowfall
